import Mathlib

/-!
# Verification of the retrieval core of the weave-skills RAG demos

Shallow embedding of the knowledge-base modules
(`demo/observability/knowledge_base.py`, `demo/rag-qa/knowledge_base.py`):
embedding acquisition with a process-wide cache (`get_embedding`),
cosine-similarity scoring (`cosine_similarity`), and top-k document
ranking (`get_most_relevant_document`).

Modelling decisions:
* Python floats are idealised as real numbers `ℝ`.
* The external embedding service (`client.embeddings.create`) is an opaque
  parameter `svc : String → String → Except Err (List ℝ)`.
* Python exceptions are an `Except Err` result; `Err.service` carries the
  opaque service-error payload, `Err.dimMismatch` is the `ValueError`
  that `np.dot` raises on 1-d arrays of different lengths.
* The module-level dict `_embedding_cache` and the number of external
  service invocations are threaded explicitly as an `EmbedState`.
* `list.sort(key=lambda x: x[1], reverse=True)` is a stable descending
  sort by score; it is embedded as a stable insertion sort `sortDesc`.
* `similarities[:top_k]` uses Python slice semantics, embedded as `pySlice`
  (`top_k` is `Int`: a negative stop index counts from the end).
-/

namespace WeaveSkills

/-- Error outcome of the embedded Python code: an opaque embedding-service
failure (network/quota/invalid input), or the `ValueError` raised by
`np.dot` on 1-d arrays of different lengths. -/
inductive Err where
  | service : String → Err
  | dimMismatch : Err
deriving DecidableEq, Repr

/-- A document record: `{"id": ..., "title": ..., "content": ...}`. -/
structure Doc where
  id : String
  title : String
  content : String
deriving DecidableEq, Repr

/-- First document of the static collection hardcoded in both
knowledge-base modules. -/
def doc1 : Doc :=
  { id := "doc1", title := "Python 소개",
    content := "Python은 1991년 귀도 반 로섬이 만든 프로그래밍 언어입니다. 간결하고 읽기 쉬운 문법이 특징이며, 웹 개발, 데이터 분석, 인공지능 등 다양한 분야에서 사용됩니다." }

def doc2 : Doc :=
  { id := "doc2", title := "FastAPI 개요",
    content := "FastAPI는 Python으로 API를 만들기 위한 현대적인 웹 프레임워크입니다. 높은 성능과 자동 문서화 기능을 제공하며, 타입 힌트를 활용한 데이터 검증을 지원합니다." }

def doc3 : Doc :=
  { id := "doc3", title := "RAG 아키텍처",
    content := "RAG(Retrieval-Augmented Generation)는 검색과 생성을 결합한 아키텍처입니다. 먼저 관련 문서를 검색하고, 검색된 문서를 컨텍스트로 활용하여 LLM이 답변을 생성합니다." }

def doc4 : Doc :=
  { id := "doc4", title := "벡터 데이터베이스",
    content := "벡터 데이터베이스는 임베딩 벡터를 저장하고 유사도 검색을 수행하는 데이터베이스입니다. Pinecone, Weaviate, Chroma 등이 대표적인 벡터 DB입니다." }

def doc5 : Doc :=
  { id := "doc5", title := "프롬프트 엔지니어링",
    content := "프롬프트 엔지니어링은 LLM에게 원하는 출력을 얻기 위해 입력 프롬프트를 설계하는 기술입니다. 명확한 지시, 예시 제공, 역할 부여 등의 기법이 있습니다." }

/-- The fixed, ordered document collection `DOCUMENTS`. -/
def DOCUMENTS : List Doc := [doc1, doc2, doc3, doc4, doc5]

/-- Composite document text built inside `get_most_relevant_document`:
the title, a newline, and the content. -/
def docText (d : Doc) : String := d.title ++ "\n" ++ d.content

/-- State of the embedding subsystem: the module-level dict
`_embedding_cache` (association list keyed by the cache-key string) plus an
instrumentation counter of external embedding-service invocations. -/
structure EmbedState where
  cache : List (String × List ℝ)
  calls : Nat

/-- Lookup in the cache, modelling `cache_key in _embedding_cache` /
`_embedding_cache[cache_key]`. -/
def lookupKey (k : String) : List (String × List ℝ) → Option (List ℝ)
  | [] => none
  | (k', v) :: rest => if k = k' then some v else lookupKey k rest

/-- The cache key `f"{model}:{text[:100]}"`. -/
def cacheKey (model text : String) : String := model ++ ":" ++ text.take 100

/-- Embedding acquisition `get_embedding(text, model)`: on cache hit return the stored vector with
no external call; on miss invoke the service once, store the result under
`cacheKey`, and return it.  A failed service call propagates and caches
nothing.  `svc` is the opaque external embedding service. -/
def get_embedding (svc : String → String → Except Err (List ℝ))
    (text model : String) (s : EmbedState) :
    Except Err (List ℝ) × EmbedState :=
  match lookupKey (cacheKey model text) s.cache with
  | some v => (.ok v, s)
  | none =>
    match svc text model with
    | .error e => (.error e, { s with calls := s.calls + 1 })
    | .ok emb =>
      (.ok emb, { cache := (cacheKey model text, emb) :: s.cache, calls := s.calls + 1 })

/-- Dot product `np.dot(a, b)` of two 1-d arrays: the sum of pairwise products. -/
def dotSum (a b : List ℝ) : ℝ := (List.zipWith (fun x y => x * y) a b).sum

/-- Sum of squares of the entries of a vector. -/
def sqSum (a : List ℝ) : ℝ := (a.map (fun x => x * x)).sum

/-- Euclidean norm `np.linalg.norm(a)` of a 1-d array. -/
noncomputable def np_norm (a : List ℝ) : ℝ := Real.sqrt (sqSum a)

/-- The value `np.dot(a, b) / (np.linalg.norm(a) * np.linalg.norm(b))`
computed by `cosine_similarity` once `np.dot` has accepted the shapes. -/
noncomputable def cosVal (a b : List ℝ) : ℝ := dotSum a b / (np_norm a * np_norm b)

/-- Similarity scoring `cosine_similarity(a, b)`: `np.dot` raises `ValueError` when the 1-d
shapes differ, otherwise the quotient is computed with no zero-norm guard. -/
noncomputable def cosine_similarity (a b : List ℝ) : Except Err ℝ :=
  if a.length = b.length then .ok (cosVal a b) else .error .dimMismatch

/-- The loop body of `get_most_relevant_document`: for each document fetch
its embedding (cache-backed) and score it against the query embedding,
propagating the first failure. -/
noncomputable def scoreDocs (svc : String → String → Except Err (List ℝ))
    (qemb : List ℝ) : List Doc → EmbedState →
    Except Err (List (Doc × ℝ)) × EmbedState
  | [], s => (.ok [], s)
  | d :: ds, s =>
    match get_embedding svc (docText d) "text-embedding-3-small" s with
    | (.error e, s1) => (.error e, s1)
    | (.ok demb, s1) =>
      match cosine_similarity qemb demb with
      | .error e => (.error e, s1)
      | .ok sim =>
        match scoreDocs svc qemb ds s1 with
        | (.error e, s2) => (.error e, s2)
        | (.ok rest, s2) => (.ok ((d, sim) :: rest), s2)

/-- Stable descending insertion by score: the new element goes in front of
the first element whose score is not strictly greater, so among equal scores
an earlier element of the input stays earlier. -/
noncomputable def insertDesc {α : Type} (x : α × ℝ) :
    List (α × ℝ) → List (α × ℝ)
  | [] => [x]
  | y :: ys => if x.2 < y.2 then y :: insertDesc x ys else x :: y :: ys

/-- Embedding of `similarities.sort(key=lambda x: x[1], reverse=True)`: a
stable sort by descending score, as insertion sort. -/
noncomputable def sortDesc {α : Type} : List (α × ℝ) → List (α × ℝ)
  | [] => []
  | x :: xs => insertDesc x (sortDesc xs)

/-- Python list slicing `l[:k]` for an `int` stop `k`: for `k ≥ 0` the first
`k` elements, for `k < 0` all but the last `|k|` elements (clamped at 0). -/
def pySlice {α : Type} (l : List α) (k : Int) : List α :=
  if 0 ≤ k then l.take k.toNat else l.take ((l.length : Int) + k).toNat

/-- Retrieval `get_most_relevant_document(query, top_k)`: embed the query, score every
document of `DOCUMENTS`, sort by descending similarity (stable), and return
the documents of `similarities[:top_k]`. -/
noncomputable def get_most_relevant_document
    (svc : String → String → Except Err (List ℝ))
    (query : String) (top_k : Int) (s : EmbedState) :
    Except Err (List Doc) × EmbedState :=
  match get_embedding svc query "text-embedding-3-small" s with
  | (.error e, s1) => (.error e, s1)
  | (.ok qemb, s1) =>
    match scoreDocs svc qemb DOCUMENTS s1 with
    | (.error e, s2) => (.error e, s2)
    | (.ok sims, s2) =>
      (.ok (List.map Prod.fst (pySlice (sortDesc sims) top_k)), s2)

/-- Constant embedding service used for concrete runs: every text embeds to
the one-dimensional vector `[1]`. -/
def constSvc : String → String → Except Err (List ℝ) := fun _ _ => .ok [1]

/-- Always-failing embedding service used for failure-propagation runs. -/
def failSvc : String → String → Except Err (List ℝ) := fun _ _ =>
  .error (.service "boom")

/-- Mocked embedding service realising the ranking example of the spec:
the query embeds to `[1, 0]` and the five documents to unit-length-10
vectors whose cosine similarities to the query are 0.9, 0.1, 0.5, 0.9
and 0.3 respectively. -/
noncomputable def exSvc : String → String → Except Err (List ℝ) := fun t _ =>
  if t = "q" then .ok [1, 0]
  else if t = docText doc1 then .ok [9, Real.sqrt 19]
  else if t = docText doc2 then .ok [1, Real.sqrt 99]
  else if t = docText doc3 then .ok [5, Real.sqrt 75]
  else if t = docText doc4 then .ok [9, Real.sqrt 19]
  else if t = docText doc5 then .ok [3, Real.sqrt 91]
  else .error (.service "unknown text")

/-- A text of 100 `a` characters followed by `X`. -/
def strA : String := "aaaaaaaaaaaaaaaaaaaaaaaaaaaaaaaaaaaaaaaaaaaaaaaaaaaaaaaaaaaaaaaaaaaaaaaaaaaaaaaaaaaaaaaaaaaaaaaaaaaaX"

/-- A text of 100 `a` characters followed by `Y`: it agrees with `strA` on
the first 100 characters but differs beyond them. -/
def strB : String := "aaaaaaaaaaaaaaaaaaaaaaaaaaaaaaaaaaaaaaaaaaaaaaaaaaaaaaaaaaaaaaaaaaaaaaaaaaaaaaaaaaaaaaaaaaaaaaaaaaaaY"

/-- Embedding service that distinguishes the full texts `strA` and `strB`,
used to exhibit the cache-key truncation behaviour. -/
def prefSvc : String → String → Except Err (List ℝ) := fun t _ =>
  if t = strA then .ok [3] else .ok [4]

/-- Elements of a scored list carrying a given score, in order: the score
classes whose preservation states stability of the sort. -/
noncomputable def scoreFilter {α : Type} (c : ℝ) (l : List (α × ℝ)) :
    List (α × ℝ) :=
  l.filter (fun p => decide (p.2 = c))

end WeaveSkills

namespace WeaveSkills

/-! ## Basic facts about `get_embedding` and the cache -/

theorem get_embedding_hit {svc : String → String → Except Err (List ℝ)}
    {t m : String} {s : EmbedState} {v : List ℝ}
    (h : lookupKey (cacheKey m t) s.cache = some v) :
    get_embedding svc t m s = (.ok v, s) := by
  unfold get_embedding
  rw [h]

theorem get_embedding_miss_err {svc : String → String → Except Err (List ℝ)}
    {t m : String} {s : EmbedState} {e : Err}
    (hl : lookupKey (cacheKey m t) s.cache = none)
    (hs : svc t m = .error e) :
    get_embedding svc t m s = (.error e, ⟨s.cache, s.calls + 1⟩) := by
  unfold get_embedding
  rw [hl, hs]

theorem get_embedding_miss_ok {svc : String → String → Except Err (List ℝ)}
    {t m : String} {s : EmbedState} {emb : List ℝ}
    (hl : lookupKey (cacheKey m t) s.cache = none)
    (hs : svc t m = .ok emb) :
    get_embedding svc t m s =
      (.ok emb, ⟨(cacheKey m t, emb) :: s.cache, s.calls + 1⟩) := by
  unfold get_embedding
  rw [hl, hs]

theorem get_embedding_ok_cached {svc : String → String → Except Err (List ℝ)}
    {t m : String} {s : EmbedState} {v : List ℝ}
    (h : (get_embedding svc t m s).1 = .ok v) :
    lookupKey (cacheKey m t) ((get_embedding svc t m s).2).cache = some v := by
  cases hl : lookupKey (cacheKey m t) s.cache with
  | some w =>
    rw [get_embedding_hit hl] at h ⊢
    simp only [Except.ok.injEq] at h
    rw [hl, h]
  | none =>
    cases hsvc : svc t m with
    | error e =>
      rw [get_embedding_miss_err hl hsvc] at h
      simp at h
    | ok emb =>
      rw [get_embedding_miss_ok hl hsvc] at h ⊢
      simp [lookupKey]
      simp only [Except.ok.injEq] at h
      exact h

theorem get_embedding_cached_again
    {svc svc' : String → String → Except Err (List ℝ)}
    {t t' m : String} {s : EmbedState} {v : List ℝ}
    (hk : cacheKey m t' = cacheKey m t)
    (h : (get_embedding svc t m s).1 = .ok v) :
    get_embedding svc' t' m ((get_embedding svc t m s).2) =
      (.ok v, (get_embedding svc t m s).2) :=
  get_embedding_hit (by rw [hk]; exact get_embedding_ok_cached h)

theorem get_embedding_calls_le (svc : String → String → Except Err (List ℝ))
    (t m : String) (s : EmbedState) :
    ((get_embedding svc t m s).2).calls ≤ s.calls + 1 := by
  cases hl : lookupKey (cacheKey m t) s.cache with
  | some w => rw [get_embedding_hit hl]; exact Nat.le_succ _
  | none =>
    cases hsvc : svc t m with
    | error e => rw [get_embedding_miss_err hl hsvc]
    | ok emb => rw [get_embedding_miss_ok hl hsvc]

/-- C3: calling `get_embedding` twice with the same text and model returns
the identical vector the second time, answered from the cache with no
further state change (in particular no second external call), and the two
calls together invoke the external service at most once. -/
theorem C3_cache_idempotent :
    ∀ (svc : String → String → Except Err (List ℝ)) (t m : String)
      (s : EmbedState) (v : List ℝ),
    (get_embedding svc t m s).1 = .ok v →
    get_embedding svc t m ((get_embedding svc t m s).2) =
        (.ok v, (get_embedding svc t m s).2) ∧
      ((get_embedding svc t m s).2).calls ≤ s.calls + 1 :=
  fun svc t m s _ h =>
    ⟨get_embedding_cached_again rfl h, get_embedding_calls_le svc t m s⟩

set_option maxRecDepth 10000 in
/-- Witness for C3: a concrete double call on an empty cache. -/
theorem C3_witness :
    get_embedding constSvc "t" "m" ((get_embedding constSvc "t" "m" ⟨[], 0⟩).2) =
        (.ok [1], (get_embedding constSvc "t" "m" ⟨[], 0⟩).2) ∧
      ((get_embedding constSvc "t" "m" ⟨[], 0⟩).2).calls ≤ 0 + 1 :=
  C3_cache_idempotent constSvc "t" "m" ⟨[], 0⟩ [1] rfl

/-- C4: the cache key is the model joined by a colon to the first 100
characters of the text, so two texts agreeing on their first 100 characters
share a cache entry: after a successful call for the first text, a call for
the second returns the first vector unchanged, with no state change. -/
theorem C4_truncated_key :
    (∀ m t : String, cacheKey m t = m ++ ":" ++ t.take 100) ∧
    ∀ (svc : String → String → Except Err (List ℝ)) (t1 t2 m : String)
      (s : EmbedState) (v : List ℝ),
      t1.take 100 = t2.take 100 →
      (get_embedding svc t1 m s).1 = .ok v →
      get_embedding svc t2 m ((get_embedding svc t1 m s).2) =
        (.ok v, (get_embedding svc t1 m s).2) := by
  refine ⟨fun m t => rfl, ?_⟩
  intro svc t1 t2 m s v hpre h
  exact get_embedding_cached_again (by unfold cacheKey; rw [hpre]) h

set_option maxRecDepth 100000 in
/-- Witness for C4: two 101-character texts that differ only in their last
character; the service distinguishes them, yet the second call returns the
first text's vector from the cache. -/
theorem C4_witness :
    get_embedding prefSvc strB "m" ((get_embedding prefSvc strA "m" ⟨[], 0⟩).2) =
        (.ok [3], (get_embedding prefSvc strA "m" ⟨[], 0⟩).2) ∧
      prefSvc strB "m" = .ok [4] :=
  ⟨C4_truncated_key.2 prefSvc strA strB "m" ⟨[], 0⟩ [3] rfl rfl, rfl⟩

/-- C9: every `get_embedding` call mutates the cache insert-only: entries
present before are still present with the same value afterwards; a failed
service call leaves the cache unchanged; and the cache either stays exactly
as it was (hit, or failure) or gains exactly one new key that was absent. -/
theorem C9_insert_only :
    ∀ (svc : String → String → Except Err (List ℝ)) (t m : String)
      (s : EmbedState),
    (∀ k v, lookupKey k s.cache = some v →
      lookupKey k ((get_embedding svc t m s).2).cache = some v) ∧
    (∀ e, (get_embedding svc t m s).1 = .error e →
      ((get_embedding svc t m s).2).cache = s.cache) ∧
    (((get_embedding svc t m s).2).cache = s.cache ∨
      ∃ emb, (get_embedding svc t m s).1 = .ok emb ∧
        lookupKey (cacheKey m t) s.cache = none ∧
        ((get_embedding svc t m s).2).cache = (cacheKey m t, emb) :: s.cache) := by
  intro svc t m s
  cases hl : lookupKey (cacheKey m t) s.cache with
  | some w =>
    rw [get_embedding_hit hl]
    exact ⟨fun k v h => h, fun e h => rfl, Or.inl rfl⟩
  | none =>
    cases hsvc : svc t m with
    | error e' =>
      rw [get_embedding_miss_err hl hsvc]
      exact ⟨fun k v h => h, fun e h => rfl, Or.inl rfl⟩
    | ok emb =>
      rw [get_embedding_miss_ok hl hsvc]
      refine ⟨?_, ?_, Or.inr ⟨emb, rfl, rfl, rfl⟩⟩
      · intro k v h
        have hk : k ≠ cacheKey m t := by
          intro hk
          rw [hk, hl] at h
          cases h
        simpa [lookupKey, hk] using h
      · intro e h
        cases h

/-- Witness for C9: a failing service call on an empty cache leaves the
cache empty. -/
theorem C9_witness :
    ((get_embedding failSvc "t" "m" ⟨[], 0⟩).2).cache =
      ([] : List (String × List ℝ)) :=
  (C9_insert_only failSvc "t" "m" ⟨[], 0⟩).2.1 (.service "boom") rfl

/-- C8: when the two vectors have different lengths, `cosine_similarity`
raises the dimension-mismatch error instead of producing a score; no
truncation or padding takes place. -/
theorem C8_dim_mismatch :
    ∀ a b : List ℝ, a.length ≠ b.length →
      cosine_similarity a b = .error .dimMismatch := by
  intro a b h
  unfold cosine_similarity
  rw [if_neg h]

/-- Witness for C8: vectors of lengths 1 and 2. -/
theorem C8_witness :
    cosine_similarity [(1:ℝ)] [1, 2] = .error .dimMismatch :=
  C8_dim_mismatch [1] [1, 2] (by norm_num)

end WeaveSkills

namespace WeaveSkills

/-! ## Arithmetic facts about the similarity computation -/

theorem dotSum_self_eq_sqSum (a : List ℝ) : dotSum a a = sqSum a := by
  induction a with
  | nil => rfl
  | cons x l ih =>
    simp only [dotSum, sqSum, List.zipWith_cons_cons, List.map_cons,
      List.sum_cons] at ih ⊢
    rw [ih]

theorem sqSum_nonneg (a : List ℝ) : 0 ≤ sqSum a := by
  induction a with
  | nil => simp [sqSum]
  | cons x l ih =>
    simp only [sqSum, List.map_cons, List.sum_cons]
    exact add_nonneg (mul_self_nonneg x) ih

theorem sqSum_eq_zero_iff (a : List ℝ) : sqSum a = 0 ↔ ∀ x ∈ a, x = 0 := by
  induction a with
  | nil => simp [sqSum]
  | cons x l ih =>
    have hstep : sqSum (x :: l) = x * x + sqSum l := by
      simp [sqSum]
    rw [hstep, add_eq_zero_iff_of_nonneg (mul_self_nonneg x) (sqSum_nonneg l),
      mul_self_eq_zero, ih]
    constructor
    · rintro ⟨hx, hl⟩ y hy
      rcases List.mem_cons.mp hy with rfl | hy
      · exact hx
      · exact hl y hy
    · intro h
      exact ⟨h x (List.mem_cons_self x l),
        fun y hy => h y (List.mem_cons_of_mem x hy)⟩

theorem np_norm_mul_self (a : List ℝ) : np_norm a * np_norm a = sqSum a :=
  Real.mul_self_sqrt (sqSum_nonneg a)

theorem np_norm_eq_zero_iff (a : List ℝ) : np_norm a = 0 ↔ ∀ x ∈ a, x = 0 := by
  unfold np_norm
  rw [Real.sqrt_eq_zero (sqSum_nonneg a), sqSum_eq_zero_iff]

/-- C5: on equal-length vectors `cosine_similarity` returns the dot product
divided by the product of the Euclidean norms; orthogonal `[1,0]` and
`[0,1]` score 0, a vector with some nonzero entry scores 1 against itself,
and the opposite vectors `[1,0]` and `[-1,0]` score -1. -/
theorem C5_cosine_formula :
    (∀ a b : List ℝ, a.length = b.length →
      cosine_similarity a b = .ok (dotSum a b / (np_norm a * np_norm b))) ∧
    cosine_similarity [1, 0] [0, 1] = .ok 0 ∧
    (∀ a : List ℝ, (∃ x ∈ a, x ≠ 0) → cosine_similarity a a = .ok 1) ∧
    cosine_similarity [1, 0] [-1, 0] = .ok (-1) := by
  refine ⟨?_, ?_, ?_, ?_⟩
  · intro a b h
    unfold cosine_similarity
    rw [if_pos h]
    rfl
  · simp [cosine_similarity, cosVal, dotSum]
  · rintro a ⟨x, hx, hxne⟩
    have hs : sqSum a ≠ 0 := by
      rw [ne_eq, sqSum_eq_zero_iff]
      intro h
      exact hxne (h x hx)
    unfold cosine_similarity
    rw [if_pos rfl]
    unfold cosVal
    rw [dotSum_self_eq_sqSum, np_norm_mul_self, div_self hs]
  · norm_num [cosine_similarity, cosVal, dotSum, np_norm, sqSum, Real.sqrt_one]

/-- Witness for C5: the identical-vector clause applied at `[2]`. -/
theorem C5_witness : cosine_similarity [(2:ℝ)] [2] = .ok 1 :=
  C5_cosine_formula.2.2.1 [2] ⟨2, by simp, by norm_num⟩

/-- C10: the divisor of the unguarded division in `cosine_similarity` is
nonzero exactly when both vectors have a nonzero entry; on the all-zero
vectors the divisor is 0 yet the function still returns the quotient
(no error is raised, the division by zero is reached). -/
theorem C10_unguarded_division :
    (∀ a b : List ℝ, np_norm a * np_norm b ≠ 0 ↔
      ((∃ x ∈ a, x ≠ 0) ∧ (∃ x ∈ b, x ≠ 0))) ∧
    np_norm [(0:ℝ), 0] * np_norm [0, 0] = 0 ∧
    cosine_similarity [(0:ℝ), 0] [0, 0] =
      .ok (dotSum [0, 0] [0, 0] / (np_norm [0, 0] * np_norm [0, 0])) := by
  have hnz : ∀ a : List ℝ, np_norm a ≠ 0 ↔ ∃ x ∈ a, x ≠ 0 := by
    intro a
    rw [ne_eq, np_norm_eq_zero_iff]
    push_neg
    rfl
  refine ⟨?_, ?_, ?_⟩
  · intro a b
    rw [mul_ne_zero_iff, hnz, hnz]
  · rw [np_norm_mul_self]
    norm_num [sqSum]
  · unfold cosine_similarity
    rw [if_pos rfl]
    rfl

/-- Witness for C10: the nonzero-divisor equivalence applied at `[1]`. -/
theorem C10_witness : np_norm [(1:ℝ)] * np_norm [1] ≠ 0 :=
  (C10_unguarded_division.1 [1] [1]).mpr
    ⟨⟨1, by simp, one_ne_zero⟩, ⟨1, by simp, one_ne_zero⟩⟩

end WeaveSkills

namespace WeaveSkills

/-! ## Facts about the stable descending sort -/

theorem insertDesc_length {α : Type} (x : α × ℝ) (l : List (α × ℝ)) :
    (insertDesc x l).length = l.length + 1 := by
  induction l with
  | nil => rfl
  | cons y ys ih =>
    unfold insertDesc
    by_cases h : x.2 < y.2
    · rw [if_pos h]
      simp only [List.length_cons, ih]
    · rw [if_neg h]
      simp

theorem sortDesc_length {α : Type} (l : List (α × ℝ)) :
    (sortDesc l).length = l.length := by
  induction l with
  | nil => rfl
  | cons x xs ih =>
    unfold sortDesc
    rw [insertDesc_length, ih]
    rfl

theorem mem_insertDesc {α : Type} {x z : α × ℝ} {l : List (α × ℝ)}
    (h : z ∈ insertDesc x l) : z = x ∨ z ∈ l := by
  induction l with
  | nil => simpa [insertDesc] using h
  | cons y ys ih =>
    unfold insertDesc at h
    by_cases hc : x.2 < y.2
    · rw [if_pos hc] at h
      rcases List.mem_cons.mp h with rfl | h2
      · exact Or.inr (List.mem_cons_self _ _)
      · rcases ih h2 with rfl | h3
        · exact Or.inl rfl
        · exact Or.inr (List.mem_cons_of_mem _ h3)
    · rw [if_neg hc] at h
      rcases List.mem_cons.mp h with rfl | h2
      · exact Or.inl rfl
      · exact Or.inr h2

theorem pairwise_insertDesc {α : Type} (x : α × ℝ) (l : List (α × ℝ))
    (h : List.Pairwise (fun a b : α × ℝ => b.2 ≤ a.2) l) :
    List.Pairwise (fun a b : α × ℝ => b.2 ≤ a.2) (insertDesc x l) := by
  induction l with
  | nil => simp [insertDesc]
  | cons y ys ih =>
    rcases List.pairwise_cons.mp h with ⟨hy, hys⟩
    unfold insertDesc
    by_cases hc : x.2 < y.2
    · rw [if_pos hc]
      refine List.pairwise_cons.mpr ⟨?_, ih hys⟩
      intro z hz
      rcases mem_insertDesc hz with rfl | hz2
      · exact le_of_lt hc
      · exact hy z hz2
    · rw [if_neg hc]
      push_neg at hc
      refine List.pairwise_cons.mpr ⟨?_, h⟩
      intro z hz
      rcases List.mem_cons.mp hz with rfl | hz2
      · exact hc
      · exact le_trans (hy z hz2) hc

theorem sortDesc_pairwise {α : Type} (l : List (α × ℝ)) :
    List.Pairwise (fun a b : α × ℝ => b.2 ≤ a.2) (sortDesc l) := by
  induction l with
  | nil => simp [sortDesc]
  | cons x xs ih =>
    unfold sortDesc
    exact pairwise_insertDesc x _ ih

theorem scoreFilter_cons {α : Type} (c : ℝ) (y : α × ℝ) (l : List (α × ℝ)) :
    scoreFilter c (y :: l) =
      if y.2 = c then y :: scoreFilter c l else scoreFilter c l := by
  by_cases h : y.2 = c <;> simp [scoreFilter, List.filter_cons, h]

theorem scoreFilter_insertDesc {α : Type} (c : ℝ) (x : α × ℝ)
    (l : List (α × ℝ)) :
    scoreFilter c (insertDesc x l) =
      if x.2 = c then x :: scoreFilter c l else scoreFilter c l := by
  induction l with
  | nil =>
    by_cases h : x.2 = c <;> simp [insertDesc, scoreFilter, List.filter, h]
  | cons y ys ih =>
    unfold insertDesc
    by_cases hc : x.2 < y.2
    · rw [if_pos hc, scoreFilter_cons]
      by_cases hyc : y.2 = c
      · have hxc : ¬ x.2 = c := by
          intro h
          rw [hyc, ← h] at hc
          exact lt_irrefl _ hc
        simp [hyc, hxc, ih, scoreFilter_cons]
      · simp [hyc, ih, scoreFilter_cons]
    · rw [if_neg hc, scoreFilter_cons, scoreFilter_cons]

theorem scoreFilter_sortDesc {α : Type} (c : ℝ) (l : List (α × ℝ)) :
    scoreFilter c (sortDesc l) = scoreFilter c l := by
  induction l with
  | nil => rfl
  | cons x xs ih =>
    unfold sortDesc
    rw [scoreFilter_insertDesc, scoreFilter_cons]
    by_cases h : x.2 = c <;> simp [h, ih]

/-! ## Structure of the retrieval pipeline -/

theorem pySlice_of_nonneg {α : Type} (l : List α) {k : Int} (h : 0 ≤ k) :
    pySlice l k = l.take k.toNat := by
  unfold pySlice
  rw [if_pos h]

theorem pySlice_of_neg {α : Type} (l : List α) {k : Int} (h : k < 0) :
    pySlice l k = l.take ((l.length : Int) + k).toNat := by
  unfold pySlice
  rw [if_neg (not_le.mpr h)]

theorem scoreDocs_ok_length {svc : String → String → Except Err (List ℝ)}
    {qemb : List ℝ} :
    ∀ (ds : List Doc) (s : EmbedState) (l : List (Doc × ℝ)),
      (scoreDocs svc qemb ds s).1 = .ok l → l.length = ds.length := by
  intro ds
  induction ds with
  | nil =>
    intro s l h
    simp only [scoreDocs] at h
    obtain rfl : l = [] := by simpa using h.symm
    rfl
  | cons d ds ih =>
    intro s l h
    unfold scoreDocs at h
    rcases hge : get_embedding svc (docText d) "text-embedding-3-small" s
      with ⟨r1, s1⟩
    rw [hge] at h
    cases r1 with
    | error e => simp at h
    | ok demb =>
      dsimp only at h
      cases hcs : cosine_similarity qemb demb with
      | error e => rw [hcs] at h; simp at h
      | ok sim =>
        rw [hcs] at h
        rcases hsd : scoreDocs svc qemb ds s1 with ⟨r2, s2⟩
        rw [hsd] at h
        cases r2 with
        | error e => simp at h
        | ok rest =>
          obtain rfl : l = (d, sim) :: rest := by simpa using h.symm
          have hlen := ih s1 rest (by rw [hsd])
          simp [hlen]

theorem gmrd_of_runs {svc : String → String → Except Err (List ℝ)}
    (q : String) (tk : Int) (s : EmbedState)
    {qemb : List ℝ} {full : List (Doc × ℝ)}
    (h1 : (get_embedding svc q "text-embedding-3-small" s).1 = .ok qemb)
    (h2 : (scoreDocs svc qemb DOCUMENTS
        ((get_embedding svc q "text-embedding-3-small" s).2)).1 = .ok full) :
    (get_most_relevant_document svc q tk s).1 =
      .ok (List.map Prod.fst (pySlice (sortDesc full) tk)) := by
  unfold get_most_relevant_document
  rcases hq : get_embedding svc q "text-embedding-3-small" s with ⟨r1, s1⟩
  rw [hq] at h1 h2
  dsimp only at h1 h2
  subst h1
  dsimp only
  rcases hs : scoreDocs svc qemb DOCUMENTS s1 with ⟨r2, s2⟩
  rw [hs] at h2
  dsimp only at h2
  subst h2
  rfl

theorem gmrd_ok_inv {svc : String → String → Except Err (List ℝ)}
    {q : String} {tk : Int} {s : EmbedState} {l : List Doc}
    (h : (get_most_relevant_document svc q tk s).1 = .ok l) :
    ∃ qemb full,
      (get_embedding svc q "text-embedding-3-small" s).1 = .ok qemb ∧
      (scoreDocs svc qemb DOCUMENTS
        ((get_embedding svc q "text-embedding-3-small" s).2)).1 = .ok full ∧
      l = List.map Prod.fst (pySlice (sortDesc full) tk) := by
  unfold get_most_relevant_document at h
  rcases hq : get_embedding svc q "text-embedding-3-small" s with ⟨r1, s1⟩
  rw [hq] at h
  cases r1 with
  | error e => simp at h
  | ok qemb =>
    dsimp only at h
    rcases hs : scoreDocs svc qemb DOCUMENTS s1 with ⟨r2, s2⟩
    rw [hs] at h
    cases r2 with
    | error e => simp at h
    | ok full =>
      refine ⟨qemb, full, rfl, ?_, ?_⟩
      · show (scoreDocs svc qemb DOCUMENTS s1).1 = Except.ok full
        rw [hs]
      · simp at h
        exact h.symm

theorem gmrd_query_error {svc : String → String → Except Err (List ℝ)}
    {q : String} {tk : Int} {s s1 : EmbedState} {e : Err}
    (h : get_embedding svc q "text-embedding-3-small" s = (.error e, s1)) :
    get_most_relevant_document svc q tk s = (.error e, s1) := by
  unfold get_most_relevant_document
  rw [h]

theorem gmrd_docs_error {svc : String → String → Except Err (List ℝ)}
    {q : String} {tk : Int} {s : EmbedState} {qemb : List ℝ} {e : Err}
    (h1 : (get_embedding svc q "text-embedding-3-small" s).1 = .ok qemb)
    (h2 : (scoreDocs svc qemb DOCUMENTS
        ((get_embedding svc q "text-embedding-3-small" s).2)).1 = .error e) :
    (get_most_relevant_document svc q tk s).1 = .error e := by
  unfold get_most_relevant_document
  rcases hq : get_embedding svc q "text-embedding-3-small" s with ⟨r1, s1⟩
  rw [hq] at h1 h2
  dsimp only at h1 h2
  subst h1
  dsimp only
  rcases hs : scoreDocs svc qemb DOCUMENTS s1 with ⟨r2, s2⟩
  rw [hs] at h2
  dsimp only at h2
  subst h2
  rfl

end WeaveSkills

namespace WeaveSkills

/-! ## Concrete runs with the constant service -/

theorem get_embedding_error_state {svc : String → String → Except Err (List ℝ)}
    {t m : String} {s s1 : EmbedState} {e : Err}
    (h : get_embedding svc t m s = (.error e, s1)) :
    s1 = ⟨s.cache, s.calls + 1⟩ := by
  cases hl : lookupKey (cacheKey m t) s.cache with
  | some w => rw [get_embedding_hit hl] at h; simp at h
  | none =>
    cases hsvc : svc t m with
    | error e' =>
      rw [get_embedding_miss_err hl hsvc] at h
      injection h with h1 h2
      exact h2.symm
    | ok emb => rw [get_embedding_miss_ok hl hsvc] at h; simp at h

set_option maxRecDepth 40000 in
theorem constRun_q :
    (get_embedding constSvc "q" "text-embedding-3-small" ⟨[], 0⟩).1 = .ok [1] := rfl

set_option maxRecDepth 400000 in
theorem constRun_docs :
    (scoreDocs constSvc [1] DOCUMENTS
      ((get_embedding constSvc "q" "text-embedding-3-small" ⟨[], 0⟩).2)).1 =
    .ok [(doc1, cosVal [1] [1]), (doc2, cosVal [1] [1]), (doc3, cosVal [1] [1]),
         (doc4, cosVal [1] [1]), (doc5, cosVal [1] [1])] := rfl

theorem cosVal_one : cosVal [1] [1] = 1 := by
  norm_num [cosVal, dotSum, sqSum, np_norm]

theorem sortDesc_const :
    sortDesc [(doc1, (1:ℝ)), (doc2, 1), (doc3, 1), (doc4, 1), (doc5, 1)] =
      [(doc1, (1:ℝ)), (doc2, 1), (doc3, 1), (doc4, 1), (doc5, 1)] := by
  norm_num [sortDesc, insertDesc]

theorem constRun (tk : Int) :
    (get_most_relevant_document constSvc "q" tk ⟨[], 0⟩).1 =
      .ok (List.map Prod.fst (pySlice
        [(doc1, (1:ℝ)), (doc2, 1), (doc3, 1), (doc4, 1), (doc5, 1)] tk)) := by
  rw [gmrd_of_runs "q" tk ⟨[], 0⟩ constRun_q constRun_docs]
  simp only [cosVal_one]
  rw [sortDesc_const]

theorem constRunNeg1 :
    (get_most_relevant_document constSvc "q" (-1) ⟨[], 0⟩).1 =
      .ok [doc1, doc2, doc3, doc4] := by
  rw [constRun]
  rfl

theorem constRunAll :
    (get_most_relevant_document constSvc "q" 100 ⟨[], 0⟩).1 =
      .ok [doc1, doc2, doc3, doc4, doc5] := by
  rw [constRun]
  rfl

/-- C1 counterexample: with `top_k = -1` (an integer ≤ 0) and a service that
succeeds, the function returns four documents, not an empty sequence:
Python's `similarities[:-1]` drops only the last ranked element. -/
theorem C1_counterexample :
    (get_most_relevant_document constSvc "q" (-1) ⟨[], 0⟩).1 =
        .ok [doc1, doc2, doc3, doc4] ∧
      (get_most_relevant_document constSvc "q" (-1) ⟨[], 0⟩).1 ≠
        .ok ([] : List Doc) := by
  refine ⟨constRunNeg1, ?_⟩
  rw [constRunNeg1]
  simp

/-- C1 amended: on a successful retrieval with `top_k ≤ 0`, slicing follows
Python semantics: `top_k = 0` yields the empty sequence, and a negative
`top_k` yields the ranked list minus its last `|top_k|` documents, so the
result is empty only when `top_k ≤ -(collection size)`. -/
theorem C1_nonpositive_topk :
    ∀ (svc : String → String → Except Err (List ℝ)) (q : String)
      (s : EmbedState) (tk : Int) (l : List Doc),
      tk ≤ 0 →
      (get_most_relevant_document svc q tk s).1 = .ok l →
      (tk = 0 → l = []) ∧
      (tk < 0 → l.length = ((DOCUMENTS.length : Int) + tk).toNat) := by
  intro svc q s tk l htk h
  obtain ⟨qemb, full, h1, h2, rfl⟩ := gmrd_ok_inv h
  have hfull : full.length = DOCUMENTS.length :=
    scoreDocs_ok_length DOCUMENTS _ full h2
  constructor
  · rintro rfl
    rw [pySlice_of_nonneg _ le_rfl]
    simp
  · intro hneg
    rw [pySlice_of_neg _ hneg, List.length_map, List.length_take,
      sortDesc_length, hfull]
    have h5 : DOCUMENTS.length = 5 := rfl
    omega

/-- Witness for C1 amended: at `top_k = -1` the concrete run returns four
of the five documents. -/
theorem C1_witness :
    ([doc1, doc2, doc3, doc4] : List Doc).length =
      ((DOCUMENTS.length : Int) + (-1)).toNat :=
  (C1_nonpositive_topk constSvc "q" ⟨[], 0⟩ (-1) [doc1, doc2, doc3, doc4]
    (by norm_num) constRunNeg1).2 (by norm_num)

/-- C6: on a successful retrieval with positive `top_k` the result has
length `min top_k (collection size)`; in particular `top_k = 100` on the
5-document collection returns all five documents in ranked order, no
error. -/
theorem C6_topk_saturation :
    (∀ (svc : String → String → Except Err (List ℝ)) (q : String)
        (s : EmbedState) (tk : Int) (l : List Doc),
      0 < tk →
      (get_most_relevant_document svc q tk s).1 = .ok l →
      l.length = min tk.toNat DOCUMENTS.length) ∧
    (get_most_relevant_document constSvc "q" 100 ⟨[], 0⟩).1 =
      .ok [doc1, doc2, doc3, doc4, doc5] := by
  refine ⟨?_, constRunAll⟩
  intro svc q s tk l htk h
  obtain ⟨qemb, full, h1, h2, rfl⟩ := gmrd_ok_inv h
  have hfull : full.length = DOCUMENTS.length :=
    scoreDocs_ok_length DOCUMENTS _ full h2
  rw [pySlice_of_nonneg _ (le_of_lt htk), List.length_map, List.length_take,
    sortDesc_length, hfull]

/-- Witness for C6: the length clause applied to the concrete
`top_k = 100` run. -/
theorem C6_witness :
    ([doc1, doc2, doc3, doc4, doc5] : List Doc).length =
      min ((100 : Int).toNat) DOCUMENTS.length :=
  C6_topk_saturation.1 constSvc "q" ⟨[], 0⟩ 100 [doc1, doc2, doc3, doc4, doc5]
    (by norm_num) constRunAll

/-- C7: if the embedding service fails on the query text, the retrieval
returns that same error with the state of the failed query call — the cache
untouched and exactly one external call made, so zero document-embedding
calls happened; and if the query succeeds but scoring the documents fails,
that error propagates and no partial ranked list is returned. -/
theorem C7_failure_propagation :
    (∀ (svc : String → String → Except Err (List ℝ)) (q : String) (tk : Int)
        (s : EmbedState) (e : Err) (s1 : EmbedState),
      get_embedding svc q "text-embedding-3-small" s = (.error e, s1) →
      get_most_relevant_document svc q tk s = (.error e, s1) ∧
        s1.cache = s.cache ∧ s1.calls = s.calls + 1) ∧
    (∀ (svc : String → String → Except Err (List ℝ)) (q : String) (tk : Int)
        (s : EmbedState) (qemb : List ℝ) (e : Err),
      (get_embedding svc q "text-embedding-3-small" s).1 = .ok qemb →
      (scoreDocs svc qemb DOCUMENTS
        ((get_embedding svc q "text-embedding-3-small" s).2)).1 = .error e →
      (get_most_relevant_document svc q tk s).1 = .error e) := by
  constructor
  · intro svc q tk s e s1 h
    obtain rfl := get_embedding_error_state h
    exact ⟨gmrd_query_error h, rfl, rfl⟩
  · intro svc q tk s qemb e h1 h2
    exact gmrd_docs_error h1 h2

/-- Witness for C7: the always-failing service propagates its error object
out of the retrieval unchanged, leaving an empty cache and one call. -/
theorem C7_witness :
    get_most_relevant_document failSvc "q" 3 ⟨[], 0⟩ =
      (.error (.service "boom"), ⟨[], 1⟩) :=
  ((C7_failure_propagation.1 failSvc "q" 3 ⟨[], 0⟩ (.service "boom")
    ⟨[], 1⟩) rfl).1

end WeaveSkills

namespace WeaveSkills

/-! ## The ranking example with mocked similarity scores -/

set_option maxRecDepth 40000 in
theorem exRun_q :
    (get_embedding exSvc "q" "text-embedding-3-small" ⟨[], 0⟩).1 =
      .ok [1, 0] := rfl

set_option maxRecDepth 400000 in
theorem exRun_docs :
    (scoreDocs exSvc [1, 0] DOCUMENTS
      ((get_embedding exSvc "q" "text-embedding-3-small" ⟨[], 0⟩).2)).1 =
    .ok [(doc1, cosVal [1, 0] [9, Real.sqrt 19]),
         (doc2, cosVal [1, 0] [1, Real.sqrt 99]),
         (doc3, cosVal [1, 0] [5, Real.sqrt 75]),
         (doc4, cosVal [1, 0] [9, Real.sqrt 19]),
         (doc5, cosVal [1, 0] [3, Real.sqrt 91])] := rfl

theorem cosVal_ex1 : cosVal [1, 0] [9, Real.sqrt 19] = 9 / 10 := by
  have hs : Real.sqrt 19 * Real.sqrt 19 = 19 := Real.mul_self_sqrt (by norm_num)
  simp only [cosVal, dotSum, sqSum, np_norm, List.zipWith, List.map,
    List.sum_cons, List.sum_nil]
  rw [hs]
  norm_num
  rw [show (100:ℝ) = 10 ^ 2 by norm_num,
    Real.sqrt_sq (by norm_num : (0:ℝ) ≤ 10)]

theorem cosVal_ex2 : cosVal [1, 0] [1, Real.sqrt 99] = 1 / 10 := by
  have hs : Real.sqrt 99 * Real.sqrt 99 = 99 := Real.mul_self_sqrt (by norm_num)
  simp only [cosVal, dotSum, sqSum, np_norm, List.zipWith, List.map,
    List.sum_cons, List.sum_nil]
  rw [hs]
  norm_num
  rw [show (100:ℝ) = 10 ^ 2 by norm_num,
    Real.sqrt_sq (by norm_num : (0:ℝ) ≤ 10)]
  norm_num

theorem cosVal_ex3 : cosVal [1, 0] [5, Real.sqrt 75] = 5 / 10 := by
  have hs : Real.sqrt 75 * Real.sqrt 75 = 75 := Real.mul_self_sqrt (by norm_num)
  simp only [cosVal, dotSum, sqSum, np_norm, List.zipWith, List.map,
    List.sum_cons, List.sum_nil]
  rw [hs]
  norm_num
  rw [show (100:ℝ) = 10 ^ 2 by norm_num,
    Real.sqrt_sq (by norm_num : (0:ℝ) ≤ 10)]
  norm_num

theorem cosVal_ex5 : cosVal [1, 0] [3, Real.sqrt 91] = 3 / 10 := by
  have hs : Real.sqrt 91 * Real.sqrt 91 = 91 := Real.mul_self_sqrt (by norm_num)
  simp only [cosVal, dotSum, sqSum, np_norm, List.zipWith, List.map,
    List.sum_cons, List.sum_nil]
  rw [hs]
  norm_num
  rw [show (100:ℝ) = 10 ^ 2 by norm_num,
    Real.sqrt_sq (by norm_num : (0:ℝ) ≤ 10)]

theorem sortDesc_ex :
    sortDesc [(doc1, (9:ℝ)/10), (doc2, 1/10), (doc3, 5/10), (doc4, 9/10),
        (doc5, 3/10)] =
      [(doc1, (9:ℝ)/10), (doc4, 9/10), (doc3, 5/10), (doc5, 3/10),
        (doc2, 1/10)] := by
  norm_num [sortDesc, insertDesc]

/-- C2: on a successful retrieval the result is the scored document list
sorted by descending score (stable) and sliced to `top_k`: the sorted list
is pairwise descending in score, sorting preserves every score class in
original order (stability), and on the 5-document collection with mocked
scores 0.9, 0.1, 0.5, 0.9, 0.3 the call with `top_k = 3` returns the
documents at collection indices 0, 3, 2 in that order. -/
theorem C2_ranking_order :
    (∀ (svc : String → String → Except Err (List ℝ)) (q : String) (tk : Int)
        (s : EmbedState) (qemb : List ℝ) (full : List (Doc × ℝ)),
      (get_embedding svc q "text-embedding-3-small" s).1 = .ok qemb →
      (scoreDocs svc qemb DOCUMENTS
        ((get_embedding svc q "text-embedding-3-small" s).2)).1 = .ok full →
      (get_most_relevant_document svc q tk s).1 =
        .ok (List.map Prod.fst (pySlice (sortDesc full) tk))) ∧
    (∀ l : List (Doc × ℝ),
      List.Pairwise (fun a b : Doc × ℝ => b.2 ≤ a.2) (sortDesc l)) ∧
    (∀ (c : ℝ) (l : List (Doc × ℝ)),
      scoreFilter c (sortDesc l) = scoreFilter c l) ∧
    (get_most_relevant_document exSvc "q" 3 ⟨[], 0⟩).1 =
      .ok [doc1, doc4, doc3] := by
  refine ⟨fun svc q tk s qemb full h1 h2 => gmrd_of_runs q tk s h1 h2,
    fun l => sortDesc_pairwise l, fun c l => scoreFilter_sortDesc c l, ?_⟩
  rw [gmrd_of_runs "q" 3 ⟨[], 0⟩ exRun_q exRun_docs,
    cosVal_ex1, cosVal_ex2, cosVal_ex3, cosVal_ex5, sortDesc_ex]
  rfl

/-- Witness for C2: the pipeline-shape clause applied to the concrete
mocked-score run. -/
theorem C2_witness :
    (get_most_relevant_document exSvc "q" 3 ⟨[], 0⟩).1 =
      .ok (List.map Prod.fst (pySlice (sortDesc
        [(doc1, cosVal [1, 0] [9, Real.sqrt 19]),
         (doc2, cosVal [1, 0] [1, Real.sqrt 99]),
         (doc3, cosVal [1, 0] [5, Real.sqrt 75]),
         (doc4, cosVal [1, 0] [9, Real.sqrt 19]),
         (doc5, cosVal [1, 0] [3, Real.sqrt 91])]) 3)) :=
  C2_ranking_order.1 exSvc "q" 3 ⟨[], 0⟩ [1, 0] _ exRun_q exRun_docs

end WeaveSkills
